import Mathlib

/-!
Verification of the Vision Insight Lab application (`app.py`).

The file shallowly embeds the reproducible logic of the script:
credential resolution (sidebar, lines 84-90), prompt composition
(`prompt_map` and `full_prompt`, lines 128-133 and 150-154), base64 image
encoding (`encode_image`, lines 40-42), the streaming display loop of
`analyze_image` (lines 62-76), the request payload built by
`analyze_image` (lines 50-68), and the main submit flow with its
precondition checks and catch-all error handler (lines 141-160).

Python strings are modelled as Lean `String`, Python `bytes` as
`List Nat` with every entry below 256, Python `None`-able values as
`Option`, and a raised exception as an explicit error value threaded to
the catch-all handler.
-/

namespace VisionInsightLab

/-! ### Credential resolver (app.py lines 84-90)

`api_input` is the text field value (`""` when the user typed nothing,
Python's falsy case); `secret` is `st.secrets["OPENAI_API_KEY"]` when that
key is present, `none` otherwise. The result is `st.session_state.api_key`. -/

def resolve_api_key (api_input : String) (secret : Option String) : Option String :=
  if api_input ≠ "" then some api_input.trim
  else
    match secret with
    | some s => some s
    | none => none

/-! ### Prompt composition (app.py lines 128-133, 150-154) -/

/-- The `prompt_map` dict: a lookup returning `none` for a key outside the
dict, which in Python raises `KeyError` at `prompt_map[mode]`. -/
def prompt_map (mode : String) : Option String :=
  if mode = "Descripción general" then
    some "Describe con detalle lo que se observa en la imagen: objetos, colores, iluminación, contexto y emociones visuales."
  else if mode = "Análisis artístico" then
    some "Analiza la composición, uso de color, balance visual, estilo artístico y posibles influencias estéticas."
  else if mode = "Análisis técnico" then
    some "Evalúa calidad técnica: foco, exposición, profundidad de campo, iluminación, texturas y realismo."
  else if mode = "Historia creativa" then
    some "Imagina una historia corta inspirada en la escena de la imagen. Escríbela con un tono poético o narrativo."
  else
    none

/-- The four values offered by the mode radio selector (app.py line 124). -/
def modeChoices : List String :=
  ["Descripción general", "Análisis artístico", "Análisis técnico", "Historia creativa"]

/-- The `lang_suffix` directive (app.py line 151), fixed by the language choice. -/
def lang_suffix (lang : String) : String :=
  if lang = "Español" then "Responde en español." else "Respond in English."

/-- The optional context block (app.py lines 153-154): appended exactly when
`user_context` is non-empty (Python truthiness of the string). -/
def context_suffix (user_context : String) : String :=
  if user_context = "" then "" else "\n\nContexto adicional del usuario:\n" ++ user_context

/-- The `full_prompt` composition (app.py lines 150-154): `prompt_map[mode]` followed by the
language directive and the optional context block; `none` models the
`KeyError` raised on an unrecognized mode. -/
def full_prompt (mode lang user_context : String) : Option String :=
  (prompt_map mode).map fun base_prompt =>
    base_prompt ++ "\n\n" ++ lang_suffix lang ++ context_suffix user_context

/-! ### Image encoder (app.py lines 40-42)

`encode_image` is `base64.b64encode(file.getvalue()).decode("utf-8")`:
standard RFC 4648 base64 over the raw file bytes, with `=` padding,
decoded as an ASCII/UTF-8 string. Bytes are `Nat` values below 256. -/

/-- The 64-character base64 alphabet used by `base64.b64encode`. -/
def b64Alphabet : List Char :=
  ['A', 'B', 'C', 'D', 'E', 'F', 'G', 'H', 'I', 'J', 'K', 'L', 'M',
   'N', 'O', 'P', 'Q', 'R', 'S', 'T', 'U', 'V', 'W', 'X', 'Y', 'Z',
   'a', 'b', 'c', 'd', 'e', 'f', 'g', 'h', 'i', 'j', 'k', 'l', 'm',
   'n', 'o', 'p', 'q', 'r', 's', 't', 'u', 'v', 'w', 'x', 'y', 'z',
   '0', '1', '2', '3', '4', '5', '6', '7', '8', '9', '+', '/']

/-- Character encoding a six-bit group. -/
def b64Char (n : Nat) : Char :=
  b64Alphabet.getD n 'A'

/-- Index of a character in the alphabet; `none` for a non-alphabet
character. This is the character-level inverse used by decoding. -/
def b64Val (c : Char) : Option Nat :=
  b64Alphabet.findIdx? (· = c)

/-- Base64 encoding of a byte list, three bytes to four characters, with
`=` padding for a final group of one or two bytes — the transform applied
by `base64.b64encode`. -/
def b64EncodeBytes : List Nat → List Char
  | a :: b :: c :: rest =>
    b64Char (a / 4) :: b64Char (a % 4 * 16 + b / 16) ::
      b64Char (b % 16 * 4 + c / 64) :: b64Char (c % 64) :: b64EncodeBytes rest
  | [a, b] => [b64Char (a / 4), b64Char (a % 4 * 16 + b / 16), b64Char (b % 16 * 4), '=']
  | [a] => [b64Char (a / 4), b64Char (a % 4 * 16), '=', '=']
  | [] => []

/-- Model of `encode_image` (app.py lines 40-42): the base64 text of the uploaded
file's bytes. Total — it returns a string for every byte list. -/
def encode_image (bytes : List Nat) : String :=
  ⟨b64EncodeBytes bytes⟩

/-- The standard inverse transform (`base64.b64decode`): four characters
back to three bytes, handling the two padded final-group forms; `none` on
input that is not well-formed base64. -/
def b64DecodeChars : List Char → Option (List Nat)
  | [] => some []
  | c1 :: c2 :: c3 :: c4 :: rest =>
    (b64Val c1).bind fun s1 =>
    (b64Val c2).bind fun s2 =>
    if c3 = '=' then
      if c4 = '=' ∧ rest = [] then some [s1 * 4 + s2 / 16] else none
    else
      (b64Val c3).bind fun s3 =>
      if c4 = '=' then
        if rest = [] then some [s1 * 4 + s2 / 16, s2 % 16 * 16 + s3 / 4] else none
      else
        (b64Val c4).bind fun s4 =>
        (b64DecodeChars rest).bind fun bs =>
        some ((s1 * 4 + s2 / 16) :: (s2 % 16 * 16 + s3 / 4) :: (s3 % 4 * 64 + s4) :: bs)
  | _ => none

/-! ### Streaming display loop of `analyze_image` (app.py lines 62-76)

The stream is modelled by the list of text fragments it delivers
(`delta.content` of each event that carries content; the guard
`if delta and delta.content` skips events whose content is `None` or
empty, so those contribute no fragment and no display update). The loop
keeps a running total `full`, and after each kept fragment replaces the
`message_box` content with `full + "▌"`; after the loop it replaces it
with `full` and returns `full`. -/

/-- Running concatenation built by `full += delta.content`. -/
def concatFrags (frags : List String) : String :=
  match frags with
  | [] => ""
  | c :: rest => c ++ concatFrags rest

/-- The loop body of `analyze_image`: given the accumulated text so far and
the remaining fragments, returns the final accumulated text and the list of
`message_box.markdown` display states emitted inside the loop. -/
def streamLoop (full : String) : List String → String × List String
  | [] => (full, [])
  | c :: rest =>
    if c = "" then streamLoop full rest
    else
      let full2 := full ++ c
      let r := streamLoop full2 rest
      (r.1, (full2 ++ "▌") :: r.2)

/-- The whole display behavior of `analyze_image` on a fragment list:
first component is the returned text, second is the full sequence of
`message_box` states (loop updates, then the final marker-free state). -/
def analyze_image_run (frags : List String) : String × List String :=
  let r := streamLoop "" frags
  (r.1, r.2 ++ [r.1])

/-! ### Outbound request and main submit flow (app.py lines 48-68, 141-160) -/

/-- The file handed over by `st.file_uploader` (app.py lines 108-111): its
extension (restricted by the uploader to jpg, jpeg, png, webp) and its raw
bytes, `file.getvalue()`. -/
structure UploadedFile where
  ext : String
  bytes : List Nat
  deriving DecidableEq

/-- One entry of the message `content` list (app.py lines 54-56). -/
inductive ContentPart where
  | text (s : String)
  | image_url (url : String)
  deriving DecidableEq

/-- A chat message as built on app.py lines 50-59. -/
structure ChatMessage where
  role : String
  content : List ContentPart
  deriving DecidableEq

/-- The payload of `client.chat.completions.create` (app.py lines 64-68).
`temperature` is the API's optional sampling parameter; the call passes
none, so the field models its absence from the request. -/
structure ChatRequest where
  model : String
  messages : List ChatMessage
  max_tokens : Nat
  stream : Bool
  temperature : Option Rat
  deriving DecidableEq

/-- The request `analyze_image` submits (app.py lines 50-68): one user
message holding the prompt text and the inline `data:image/png` data URL
of the encoded image, `max_tokens=1200`, `stream=True`, and no
temperature. -/
def buildRequest (base64_img prompt model : String) : ChatRequest :=
  { model := model
    messages := [⟨"user", [ContentPart.text prompt,
      ContentPart.image_url ("data:image/png;base64," ++ base64_img)]⟩]
    max_tokens := 1200
    stream := true
    temperature := none }

/-- Observable side effects of one submit action, in program order. -/
inductive Effect where
  | encodeImg
  | netRequest (req : ChatRequest)
  deriving DecidableEq

/-- What the page shows after the submit flow finishes. -/
inductive Outcome where
  | warnNoImage
  | warnNoKey
  | failure (msg : String)
  | success (result : String)
  deriving DecidableEq

/-- Python truthiness of `st.session_state.api_key`: `None` and the empty
string are falsy (app.py line 144). -/
def keyTruthy (key : Option String) : Bool :=
  match key with
  | none => false
  | some s => if s = "" then false else true

/-- The `st.error` text of the catch-all handler (app.py line 160). -/
def errorText (e : String) : String :=
  "❌ Ocurrió un error: " ++ e

/-- Python's rendering of `KeyError(mode)` inside the f-string of the
catch-all handler: the key in single quotes. -/
def keyErrorStr (mode : String) : String :=
  "\x27" ++ mode ++ "\x27"

/-- The main submit flow (app.py lines 141-160): precondition warnings for
a missing image or missing credential, then — inside try — image encoding,
prompt composition (a `KeyError` on an unknown mode is caught by the same
handler), the streaming request, and the success banner; any exception
from the call or the stream (`err = some e`) reaches the catch-all
handler. Returns the page outcome and the effects performed. -/
def runAnalyze (uploaded : Option UploadedFile) (key : Option String)
    (mode lang ctx model : String) (frags : List String) (err : Option String) :
    Outcome × List Effect :=
  match uploaded with
  | none => (Outcome.warnNoImage, [])
  | some file =>
    if keyTruthy key = false then (Outcome.warnNoKey, [])
    else
      let base64_img := encode_image file.bytes
      match full_prompt mode lang ctx with
      | none => (Outcome.failure (errorText (keyErrorStr mode)), [Effect.encodeImg])
      | some p =>
        let req := buildRequest base64_img p model
        match err with
        | some e => (Outcome.failure (errorText e), [Effect.encodeImg, Effect.netRequest req])
        | none => (Outcome.success (concatFrags frags), [Effect.encodeImg, Effect.netRequest req])

/-- The outbound requests among a list of effects. -/
def requestsOf (effs : List Effect) : List ChatRequest :=
  effs.filterMap fun e =>
    match e with
    | Effect.netRequest r => some r
    | _ => none

end VisionInsightLab

namespace VisionInsightLab

/-! ### Theorems -/

theorem streamLoop_spec (frags : List String) (full : String)
    (h : ∀ c ∈ frags, c ≠ "") :
    streamLoop full frags =
      (full ++ concatFrags frags,
       (List.range frags.length).map
         (fun i => full ++ concatFrags (frags.take (i + 1)) ++ "▌")) := by
  induction frags generalizing full with
  | nil => simp [streamLoop, concatFrags, String.append_empty]
  | cons c rest ih =>
    have hc : c ≠ "" := h c (List.mem_cons_self c rest)
    have hrest : ∀ x ∈ rest, x ≠ "" := fun x hx => h x (List.mem_cons_of_mem c hx)
    simp only [streamLoop, if_neg hc]
    rw [ih (full ++ c) hrest]
    refine Prod.ext ?_ ?_
    · simp [concatFrags, String.append_assoc]
    · simp only [List.length_cons, List.range_succ_eq_map, List.map_cons, List.map_map]
      refine congrArg₂ List.cons ?_ ?_
      · simp [concatFrags, List.take, String.append_empty, String.append_assoc]
      · refine List.map_congr_left fun i _ => ?_
        simp only [Function.comp_apply, Nat.succ_eq_add_one, List.take_succ_cons, concatFrags,
          String.append_assoc]

theorem b64Val_b64Char : ∀ n, n < 64 → b64Val (b64Char n) = some n := by decide

theorem b64Char_ne_pad : ∀ n, n < 64 → b64Char n ≠ '=' := by decide

theorem b64DecodeChars_b64EncodeBytes (bytes : List Nat) (h : ∀ x ∈ bytes, x < 256) :
    b64DecodeChars (b64EncodeBytes bytes) = some bytes := by
  induction bytes using b64EncodeBytes.induct with
  | case1 a b c rest ih =>
    have ha : a < 256 := h a (by simp)
    have hb : b < 256 := h b (by simp)
    have hc : c < 256 := h c (by simp)
    have hrest : ∀ x ∈ rest, x < 256 := fun x hx => h x (by simp [hx])
    simp only [b64EncodeBytes, b64DecodeChars,
      b64Val_b64Char (a / 4) (by omega),
      b64Val_b64Char (a % 4 * 16 + b / 16) (by omega),
      b64Val_b64Char (b % 16 * 4 + c / 64) (by omega),
      b64Val_b64Char (c % 64) (by omega),
      Option.some_bind,
      if_neg (b64Char_ne_pad (b % 16 * 4 + c / 64) (by omega)),
      if_neg (b64Char_ne_pad (c % 64) (by omega)),
      ih hrest, Option.some.injEq, List.cons.injEq, and_true]
    omega
  | case2 a b =>
    have ha : a < 256 := h a (by simp)
    have hb : b < 256 := h b (by simp)
    simp [b64EncodeBytes, b64DecodeChars,
      b64Val_b64Char (a / 4) (by omega),
      b64Val_b64Char (a % 4 * 16 + b / 16) (by omega),
      b64Val_b64Char (b % 16 * 4) (by omega),
      if_neg (b64Char_ne_pad (b % 16 * 4) (by omega))]
    omega
  | case3 a =>
    have ha : a < 256 := h a (by simp)
    simp [b64EncodeBytes, b64DecodeChars,
      b64Val_b64Char (a / 4) (by omega),
      b64Val_b64Char (a % 4 * 16) (by omega)]
    omega
  | case4 => rfl

theorem b64EncodeBytes_length (bytes : List Nat) :
    (b64EncodeBytes bytes).length = 4 * ((bytes.length + 2) / 3) := by
  induction bytes using b64EncodeBytes.induct with
  | case1 a b c rest ih =>
    simp only [b64EncodeBytes, List.length_cons, ih]
    omega
  | case2 a b => simp [b64EncodeBytes]
  | case3 a => simp [b64EncodeBytes]
  | case4 => rfl

/-- Claim C4: encoding any byte sequence with `encode_image` and decoding
the result with the standard base64 inverse yields the original bytes
exactly. -/
theorem encode_image_roundtrip (bytes : List Nat) (h : ∀ x ∈ bytes, x < 256) :
    b64DecodeChars (encode_image bytes).data = some bytes :=
  b64DecodeChars_b64EncodeBytes bytes h

/-- Witness for C4: a five-byte sequence (exercising the padded final
group) round-trips. -/
theorem encode_image_roundtrip_witness :
    b64DecodeChars (encode_image [77, 97, 110, 254, 0]).data = some [77, 97, 110, 254, 0] :=
  encode_image_roundtrip [77, 97, 110, 254, 0] (by decide)

/-- Counterexample to claim C8 as stated: on the empty byte sequence the
encoder does not signal an error — `base64.b64encode(b"")` returns `b""`,
so `encode_image` returns the empty string, a valid encoding whose decode
succeeds with the original (empty) byte sequence. -/
theorem encode_image_empty_no_error :
    encode_image [] = "" ∧ b64DecodeChars (encode_image []).data = some [] :=
  ⟨rfl, rfl⟩

/-- Amended claim C8: the Image Encoder never fails — it is total,
returning for every byte sequence (the empty one included) an encoding of
the standard base64 length `4 * ceil(n / 3)`; in particular the empty
input yields the empty string, not an error. -/
theorem encode_image_total :
    encode_image [] = "" ∧
    ∀ bytes : List Nat, (encode_image bytes).length = 4 * ((bytes.length + 2) / 3) :=
  ⟨rfl, fun bytes => b64EncodeBytes_length bytes⟩

/-- Claim C2: for every finite fragment sequence (each delivered fragment
being non-empty text, as the loop guard `if delta and delta.content` makes
empty content contribute no fragment), the display state after the i-th
fragment is the concatenation of the first i fragments with the marker
`▌` appended, and the final display state and returned value are the full
concatenation with no marker. -/
theorem analyze_image_stream_spec (frags : List String) (h : ∀ c ∈ frags, c ≠ "") :
    (analyze_image_run frags).1 = concatFrags frags ∧
    (analyze_image_run frags).2 =
      (List.range frags.length).map (fun i => concatFrags (frags.take (i + 1)) ++ "▌")
        ++ [concatFrags frags] := by
  have hs := streamLoop_spec frags "" h
  constructor
  · show (streamLoop "" frags).1 = concatFrags frags
    rw [hs]
    exact String.empty_append _
  · show (streamLoop "" frags).2 ++ [(streamLoop "" frags).1] = _
    rw [hs]
    refine congrArg₂ List.append ?_ ?_
    · exact List.map_congr_left fun i _ => by rw [String.empty_append]
    · rw [String.empty_append]

/-- Witness for C2: the fragment sequence `["Hola", " mundo"]` of §8
scenario 3, with the displayed states evaluated to literal strings. -/
theorem analyze_image_stream_spec_witness :
    ((analyze_image_run ["Hola", " mundo"]).1 = concatFrags ["Hola", " mundo"] ∧
      (analyze_image_run ["Hola", " mundo"]).2 =
        (List.range (["Hola", " mundo"] : List String).length).map
          (fun i => concatFrags ((["Hola", " mundo"] : List String).take (i + 1)) ++ "▌")
          ++ [concatFrags ["Hola", " mundo"]]) ∧
    (analyze_image_run ["Hola", " mundo"]).2 = ["Hola▌", "Hola mundo▌", "Hola mundo"] ∧
    (analyze_image_run ["Hola", " mundo"]).1 = "Hola mundo" :=
  ⟨analyze_image_stream_spec ["Hola", " mundo"] (by decide), by decide, by decide⟩

/-- Claim C3: the credential resolver returns the trimmed user value for
every non-empty user input; with an empty user input it returns the
preconfigured fallback when present; and with an empty input and no
fallback it returns no credential. -/
theorem resolve_api_key_spec :
    (∀ (u : String) (fb : Option String), u ≠ "" → resolve_api_key u fb = some u.trim) ∧
    (∀ fb : String, resolve_api_key "" (some fb) = some fb) ∧
    resolve_api_key "" none = none := by
  refine ⟨fun u fb hu => ?_, fun fb => rfl, rfl⟩
  simp [resolve_api_key, hu]

/-- Witness for C3: the three clauses at concrete inputs. -/
theorem resolve_api_key_spec_witness :
    resolve_api_key "  sk-abc  " (some "sk-fallback") = some "  sk-abc  ".trim ∧
    resolve_api_key "" (some "sk-fallback") = some "sk-fallback" ∧
    resolve_api_key "" none = none :=
  ⟨resolve_api_key_spec.1 "  sk-abc  " (some "sk-fallback") (by decide),
   resolve_api_key_spec.2.1 "sk-fallback",
   resolve_api_key_spec.2.2⟩

/-- Claim C9: the prompt lookup succeeds exactly on the four fixed mode
values; every other mode string produces a lookup failure (`KeyError`). -/
theorem prompt_map_total_iff_mode :
    ∀ mode : String, (prompt_map mode).isSome ↔ mode ∈ modeChoices := by
  intro mode
  by_cases h1 : mode = "Descripción general" <;>
    by_cases h2 : mode = "Análisis artístico" <;>
      by_cases h3 : mode = "Análisis técnico" <;>
        by_cases h4 : mode = "Historia creativa" <;>
          simp [prompt_map, modeChoices, h1, h2, h3, h4]

/-- Claim C1: for every mode among the four fixed values, every language
selection and every context string, the composed prompt is exactly the
mode template, then the fixed language directive, then — exactly when the
context is non-empty — the labeled block holding the raw context, with
nothing else (the two `\n\n` separators come from the f-strings). -/
theorem full_prompt_spec (mode lang ctx : String) (hm : mode ∈ modeChoices) :
    ∃ t, prompt_map mode = some t ∧
      full_prompt mode lang ctx =
        some (t ++ "\n\n"
          ++ (if lang = "Español" then "Responde en español." else "Respond in English.")
          ++ (if ctx = "" then "" else "\n\nContexto adicional del usuario:\n" ++ ctx)) := by
  simp only [modeChoices, List.mem_cons, List.mem_singleton, List.not_mem_nil, or_false] at hm
  rcases hm with h | h | h | h <;> subst h <;>
    exact ⟨_, rfl, rfl⟩

/-- Witness for C1: scenario of §8 — general description, Spanish, empty
context — and a non-empty-context instance. -/
theorem full_prompt_spec_witness :
    (∃ t, prompt_map "Descripción general" = some t ∧
      full_prompt "Descripción general" "Español" "" =
        some (t ++ "\n\n"
          ++ (if "Español" = "Español" then "Responde en español." else "Respond in English.")
          ++ (if "" = "" then "" else "\n\nContexto adicional del usuario:\n" ++ ""))) ∧
    (∃ t, prompt_map "Historia creativa" = some t ∧
      full_prompt "Historia creativa" "Inglés" "describe la atmósfera" =
        some (t ++ "\n\n"
          ++ (if "Inglés" = "Español" then "Responde en español." else "Respond in English.")
          ++ (if "describe la atmósfera" = "" then ""
              else "\n\nContexto adicional del usuario:\n" ++ "describe la atmósfera"))) :=
  ⟨full_prompt_spec "Descripción general" "Español" "" (by decide),
   full_prompt_spec "Historia creativa" "Inglés" "describe la atmósfera" (by decide)⟩

theorem prompt_map_eq_of_mem {mode : String} (hm : mode ∈ modeChoices) :
    ∃ t, prompt_map mode = some t := by
  simp only [modeChoices, List.mem_cons, List.mem_singleton, List.not_mem_nil, or_false] at hm
  rcases hm with h | h | h | h <;> subst h <;> exact ⟨_, rfl⟩

/-- Claim C5: submitting with no uploaded image yields the blocking warning
and performs no effect at all (no encoding, no network request), whatever
the network would have answered; likewise submitting with a falsy (absent
or empty) credential. -/
theorem analyze_preconditions (key : Option String) (file : UploadedFile)
    (mode lang ctx model : String) (frags : List String) (err : Option String) :
    runAnalyze none key mode lang ctx model frags err = (Outcome.warnNoImage, []) ∧
    (keyTruthy key = false →
      runAnalyze (some file) key mode lang ctx model frags err = (Outcome.warnNoKey, [])) := by
  refine ⟨rfl, fun hk => ?_⟩
  simp [runAnalyze, hk]

/-- Witness for C5: no image with a key present, and an image with no key. -/
theorem analyze_preconditions_witness :
    runAnalyze none (some "sk-1") "Descripción general" "Español" "" "gpt-4o" ["Hola"] none
      = (Outcome.warnNoImage, []) ∧
    runAnalyze (some ⟨"png", [137]⟩) none "Descripción general" "Español" "" "gpt-4o" ["Hola"] none
      = (Outcome.warnNoKey, []) :=
  ⟨(analyze_preconditions (some "sk-1") ⟨"png", [137]⟩ "Descripción general" "Español" ""
      "gpt-4o" ["Hola"] none).1,
   (analyze_preconditions none ⟨"png", [137]⟩ "Descripción general" "Español" ""
      "gpt-4o" ["Hola"] none).2 rfl⟩

/-- Claim C6: when the request or the stream raises (`err = some e`), the
catch-all handler shows the failure message holding the error text
verbatim, the outcome is never the success banner (no partial result is
treated as final), and exactly one request was attempted (no retry). -/
theorem analyze_exception_spec (file : UploadedFile) (key : Option String)
    (mode lang ctx model : String) (frags : List String) (e : String)
    (hk : keyTruthy key = true) (hm : mode ∈ modeChoices) :
    (runAnalyze (some file) key mode lang ctx model frags (some e)).1
        = Outcome.failure ("❌ Ocurrió un error: " ++ e) ∧
    (∀ r, (runAnalyze (some file) key mode lang ctx model frags (some e)).1
        ≠ Outcome.success r) ∧
    (requestsOf (runAnalyze (some file) key mode lang ctx model frags (some e)).2).length
        = 1 := by
  obtain ⟨t, ht⟩ := prompt_map_eq_of_mem hm
  have hfp : full_prompt mode lang ctx
      = some (t ++ "\n\n" ++ lang_suffix lang ++ context_suffix ctx) := by
    simp [full_prompt, ht]
  have hk2 : ¬ keyTruthy key = false := by simp [hk]
  refine ⟨?_, ?_, ?_⟩
  · simp [runAnalyze, hk2, hfp, errorText]
  · intro r
    simp [runAnalyze, hk2, hfp]
  · simp [runAnalyze, hk2, hfp, requestsOf]

/-- Witness for C6: an authentication rejection during the call. -/
theorem analyze_exception_spec_witness :
    (runAnalyze (some ⟨"jpg", [255, 216]⟩) (some "sk-bad") "Análisis técnico" "Inglés" "luz"
        "gpt-4o-mini" ["par"] (some "Error code: 401 - invalid_api_key")).1
      = Outcome.failure ("❌ Ocurrió un error: " ++ "Error code: 401 - invalid_api_key") ∧
    (∀ r, (runAnalyze (some ⟨"jpg", [255, 216]⟩) (some "sk-bad") "Análisis técnico" "Inglés"
        "luz" "gpt-4o-mini" ["par"] (some "Error code: 401 - invalid_api_key")).1
      ≠ Outcome.success r) ∧
    (requestsOf (runAnalyze (some ⟨"jpg", [255, 216]⟩) (some "sk-bad") "Análisis técnico"
        "Inglés" "luz" "gpt-4o-mini" ["par"]
        (some "Error code: 401 - invalid_api_key")).2).length = 1 :=
  analyze_exception_spec ⟨"jpg", [255, 216]⟩ (some "sk-bad") "Análisis técnico" "Inglés" "luz"
    "gpt-4o-mini" ["par"] "Error code: 401 - invalid_api_key" (by decide) (by decide)

theorem requestsOf_runAnalyze (uploaded : Option UploadedFile) (key : Option String)
    (mode lang ctx model : String) (frags : List String) (err : Option String)
    (req : ChatRequest)
    (hreq : req ∈ requestsOf (runAnalyze uploaded key mode lang ctx model frags err).2) :
    ∃ file p, uploaded = some file ∧ full_prompt mode lang ctx = some p ∧
      req = buildRequest (encode_image file.bytes) p model := by
  cases uploaded with
  | none => simp [runAnalyze, requestsOf] at hreq
  | some file =>
    by_cases hk : keyTruthy key = false
    · simp [runAnalyze, hk, requestsOf] at hreq
    · cases hfp : full_prompt mode lang ctx with
      | none => simp [runAnalyze, hk, hfp, requestsOf] at hreq
      | some p =>
        refine ⟨file, p, rfl, rfl, ?_⟩
        cases err <;> simp [runAnalyze, hk, hfp, requestsOf] at hreq <;> exact hreq

/-- Claim C7: every request the flow sends carries the selected model, a
single user message holding the composed instruction text and the inline
data-URL image reference, `max_tokens` exactly 1200 and streaming mode;
and it carries no temperature — the slider value is never forwarded. -/
theorem request_fields (uploaded : Option UploadedFile) (key : Option String)
    (mode lang ctx model : String) (frags : List String) (err : Option String)
    (req : ChatRequest)
    (hreq : req ∈ requestsOf (runAnalyze uploaded key mode lang ctx model frags err).2) :
    req.max_tokens = 1200 ∧ req.stream = true ∧ req.temperature = none ∧
    req.model = model ∧
    ∃ file p, uploaded = some file ∧ full_prompt mode lang ctx = some p ∧
      req.messages = [⟨"user", [ContentPart.text p,
        ContentPart.image_url ("data:image/png;base64," ++ encode_image file.bytes)]⟩] := by
  obtain ⟨file, p, hu, hp, hr⟩ :=
    requestsOf_runAnalyze uploaded key mode lang ctx model frags err req hreq
  subst hr
  exact ⟨rfl, rfl, rfl, rfl, file, p, hu, hp, rfl⟩

/-- Witness for C7: a concrete submit interaction and its one request. -/
theorem request_fields_witness :
    (buildRequest (encode_image [137])
        ("Describe con detalle lo que se observa en la imagen: objetos, colores, iluminación, contexto y emociones visuales.\n\nResponde en español.")
        "gpt-4o").max_tokens = 1200 ∧
    (buildRequest (encode_image [137])
        ("Describe con detalle lo que se observa en la imagen: objetos, colores, iluminación, contexto y emociones visuales.\n\nResponde en español.")
        "gpt-4o").stream = true ∧
    (buildRequest (encode_image [137])
        ("Describe con detalle lo que se observa en la imagen: objetos, colores, iluminación, contexto y emociones visuales.\n\nResponde en español.")
        "gpt-4o").temperature = none ∧
    (buildRequest (encode_image [137])
        ("Describe con detalle lo que se observa en la imagen: objetos, colores, iluminación, contexto y emociones visuales.\n\nResponde en español.")
        "gpt-4o").model = "gpt-4o" ∧
    ∃ file p, (some (⟨"png", [137]⟩ : UploadedFile)) = some file ∧
      full_prompt "Descripción general" "Español" "" = some p ∧
      (buildRequest (encode_image [137])
        ("Describe con detalle lo que se observa en la imagen: objetos, colores, iluminación, contexto y emociones visuales.\n\nResponde en español.")
        "gpt-4o").messages = [⟨"user", [ContentPart.text p,
        ContentPart.image_url ("data:image/png;base64," ++ encode_image file.bytes)]⟩] :=
  request_fields (some ⟨"png", [137]⟩) (some "sk-1") "Descripción general" "Español" ""
    "gpt-4o" ["Hola"] none _ (by decide)

/-- Claim C10: whatever the uploaded file's actual format among the four
accepted upload extensions, the inline image reference of the outbound
request declares the MIME type `image/png` in its data URL. -/
theorem image_url_always_png (ext : String) (bytes : List Nat)
    (hext : ext ∈ ["jpg", "jpeg", "png", "webp"])
    (key : Option String) (mode lang ctx model : String) (frags : List String)
    (err : Option String) (req : ChatRequest)
    (hreq : req ∈ requestsOf
      (runAnalyze (some ⟨ext, bytes⟩) key mode lang ctx model frags err).2) :
    ∃ p, req.messages = [⟨"user", [ContentPart.text p,
      ContentPart.image_url ("data:image/png;base64," ++ encode_image bytes)]⟩] := by
  obtain ⟨file, p, hu, hp, hr⟩ :=
    requestsOf_runAnalyze (some ⟨ext, bytes⟩) key mode lang ctx model frags err req hreq
  obtain rfl : (⟨ext, bytes⟩ : UploadedFile) = file := by
    exact Option.some.inj hu
  subst hr
  exact ⟨p, rfl⟩

set_option maxRecDepth 8192 in
/-- Witness for C10: a webp upload still yields an `image/png` data URL. -/
theorem image_url_always_png_witness :
    ∃ p, (buildRequest (encode_image [82, 73, 70, 70])
        ("Imagina una historia corta inspirada en la escena de la imagen. Escríbela con un tono poético o narrativo.\n\nRespond in English.\n\nContexto adicional del usuario:\nluz")
        "gpt-4o").messages = [⟨"user", [ContentPart.text p,
      ContentPart.image_url ("data:image/png;base64," ++ encode_image [82, 73, 70, 70])]⟩] :=
  image_url_always_png "webp" [82, 73, 70, 70] (by decide) (some "sk-1") "Historia creativa"
    "Inglés" "luz" "gpt-4o" [] none _ (by decide)

end VisionInsightLab
